import Mathlib

/-!
Verification of the MES analytics core (risk scoring, GMP compliance checking,
synthetic batch-record generation, and batch statistics) of the `mes` repository.

The Python sources `analytics.py` and `mes_features.py` are shallowly embedded
below.  Python dictionaries representing process steps and product definitions
become structures; `dict.get` with a default becomes either an `Option` field or
a defaulted field; Python substring tests (`kw in s`) become `strContains`;
float arithmetic is modelled exactly over `ℚ`; the numpy random generator is
modelled as explicit state passing through an abstract generator interface; the
Python `float(...)` parses that can raise `ValueError` are modelled with
`Option`/`Except`.
-/

/-! ### String utilities (Python substring test) -/

/-- Occurrence of the character list `needle` as a contiguous run inside a
character list, mirroring the Python expression `needle in hay` on strings. -/
def charsContains (needle : List Char) : List Char → Bool
  | [] => needle.isEmpty
  | c :: rest => needle.isPrefixOf (c :: rest) || charsContains needle rest

/-- Python `needle in hay` for strings. -/
def strContains (hay needle : String) : Bool :=
  charsContains needle.toList hay.toList

/-- Python `any(kw in s for kw in kws)`. -/
def containsAny (s : String) (kws : List String) : Bool :=
  kws.any (fun k => strContains s k)

/-- Python `str.lower()` (per-character lowercasing, which agrees with CPython
on the ASCII keywords the analytics code compares against). -/
def lowerStr (s : String) : String :=
  (s.toList.map Char.toLower).asString

/-! ### Data model

A process step is a Python dict.  The analytics code reads `step.get("name",
"")`, `step.get("关键参数", [])`, `step.get("设备", [])` and the optional key
`"时间"`; absent keys default to the empty string / empty list, which we model
by storing the already-defaulted values, and by an `Option` for the `"时间"`
key whose presence is tested with `"时间" in step`. -/

structure ProcessStep where
  name : String
  params : List String
  equipment : List String
  time : Option String
deriving DecidableEq

/-- A product/process definition dict: `"工艺步骤"` (defaulting to `[]`),
`"description"` (where Python treats both a missing key and the empty string
as falsy), and `"GMP分类"` (defaulting to `"未分类"`). -/
structure ProductInfo where
  steps : List ProcessStep
  description : Option String
  gmpClass : Option String
deriving DecidableEq

/-- Python truthiness of `product_info.get("description")`: false when the key
is absent or the string is empty. -/
def descTruthy : Option String → Bool
  | none => false
  | some d => !d.isEmpty

/-! ### Compliance Checker (`MESAnalyzer.check_gmp_compliance`) -/

structure ComplianceItem where
  step : String
  issue : String
  severity : String
  recommendation : String
deriving DecidableEq

/-- Findings emitted for one step by the two per-step rules of
`check_gmp_compliance` (analytics.py lines 234-255), in program order:
a `"严重"` finding when a sterilization-named step lacks a sterility
parameter, then a `"中等"` finding when a separation-named step lacks a
pressure/flow parameter. -/
def stepComplianceFindings (s : ProcessStep) : List ComplianceItem :=
  (if containsAny s.name ["灭菌", "无菌"]
      && !(s.params.any (fun p => strContains p "无菌" || strContains p "灭菌"))
   then [{ step := s.name, issue := "无菌步骤缺少无菌保证参数", severity := "严重",
           recommendation := "增加无菌相关监测参数" }]
   else [])
  ++
  (if containsAny s.name ["过滤", "层析", "纯化"]
      && !(s.params.any (fun p => strContains p "压力" || strContains p "流量"))
   then [{ step := s.name, issue := "分离步骤缺少过程控制参数", severity := "中等",
           recommendation := "增加压力或流量监测" }]
   else [])

/-- All compliance findings of `check_gmp_compliance`: the per-step findings in
step order, followed by the process-level `"中等"` finding when the description
is missing or empty (analytics.py lines 257-264). -/
def complianceItemsOf (info : ProductInfo) : List ComplianceItem :=
  (info.steps.map stepComplianceFindings).flatten
  ++ (if descTruthy info.description then []
      else [{ step := "整体工艺", issue := "缺少工艺描述", severity := "中等",
              recommendation := "补充工艺描述信息" }])

structure ComplianceResult where
  gmp_classification : String
  overall_status : String
  compliance_items : List ComplianceItem
  severe_count : Nat
  moderate_count : Nat
  minor_count : Nat
  recommendations : List String
deriving DecidableEq

/-- `MESAnalyzer.check_gmp_compliance` (analytics.py lines 226-281).  The
severity tallies are counts over all findings and the overall status is
`"合规"` exactly when the `"严重"` tally is zero. -/
def check_gmp_compliance (info : ProductInfo) : ComplianceResult :=
  let items := complianceItemsOf info
  let severe := items.countP (fun it => it.severity == "严重")
  let moderate := items.countP (fun it => it.severity == "中等")
  let minor := items.countP (fun it => it.severity == "轻微")
  { gmp_classification := info.gmpClass.getD "未分类"
    overall_status := if severe = 0 then "合规" else "需改进"
    compliance_items := items
    severe_count := severe
    moderate_count := moderate
    minor_count := minor
    recommendations := (items.take 5).map (fun it => it.recommendation) }

/-! ### Risk Assessor (`MESAnalyzer.assess_process_risk` and helpers) -/

/-- Risk contribution of a single parameter string inside
`MESAnalyzer._evaluate_step_risk_factors` (analytics.py lines 67-73): three
independent keyword tests, each adding its weight. -/
def paramRiskScore (p : String) : ℚ :=
  (if containsAny p ["温度", "压力", "pH", "时间"] then 1 else 0)
  + (if containsAny p ["无菌", "病毒", "内毒素"] then 3 else 0)
  + (if containsAny p ["含量", "纯度", "杂质"] then 2 else 0)

/-- Risk contribution of a single equipment string (analytics.py lines 77-83):
an if/elif/else chain, so every equipment item contributes. -/
def equipRiskScore (e : String) : ℚ :=
  if containsAny e ["生物反应器", "层析", "冻干", "灭菌"] then 2
  else if containsAny e ["灌装", "过滤", "离心"] then 3 / 2
  else 1

/-- `MESAnalyzer._evaluate_step_risk_factors` (analytics.py lines 60-85). -/
def evaluate_step_risk_factors (s : ProcessStep) : ℚ :=
  (s.params.map paramRiskScore).sum + (s.equipment.map equipRiskScore).sum

/-- The critical-operation name keywords of `assess_process_risk`
(analytics.py line 29). -/
def criticalNameKw : List String := ["灭菌", "无菌", "灌装", "层析", "病毒"]

/-- The per-step score accumulated by `assess_process_risk` (analytics.py
lines 22-38): the base factor score, multiplied by 1.5 when the step name
matches a critical-operation keyword. -/
def stepRiskScore (s : ProcessStep) : ℚ :=
  let r := evaluate_step_risk_factors s
  if containsAny s.name criticalNameKw then r * (3 / 2) else r

/-- `MESAnalyzer._determine_risk_level` (analytics.py lines 110-122). -/
def determine_risk_level (score : ℚ) : String :=
  if 8 ≤ score then "极高风险 (红色)"
  else if 6 ≤ score then "高风险 (橙色)"
  else if 4 ≤ score then "中风险 (黄色)"
  else if 2 ≤ score then "低风险 (蓝色)"
  else "可接受风险 (绿色)"

/-! ### Duration parsing

Python `float(s)` either returns a value or raises `ValueError`.  Both duration
parsers first strip the unit/bracket characters with `str.replace(..., "")`. -/

/-- Digit-run accumulator for `parseFloatQ`. -/
def digitsToNat (cs : List Char) : Nat :=
  cs.foldl (fun acc c => acc * 10 + (c.toNat - 48)) 0

/-- Model of CPython `float(s)` on the decimal spellings occurring in this
repository: optional sign, then digits with at most one decimal point.
Returns `none` exactly where CPython raises `ValueError` (the model does not
cover exponent, infinity or underscore spellings, none of which occur in the
catalog or the spec's examples). -/
def parseFloatQ (str : String) : Option ℚ :=
  let cs := str.toList
  let sign : ℚ := match cs with
    | '-' :: _ => -1
    | _ => 1
  let body := match cs with
    | '-' :: rest => rest
    | '+' :: rest => rest
    | _ => cs
  match body.splitOn '.' with
  | [intPart] =>
    if intPart ≠ [] && intPart.all Char.isDigit then
      some (sign * digitsToNat intPart)
    else none
  | [intPart, fracPart] =>
    if (intPart ≠ [] || fracPart ≠ [])
        && intPart.all Char.isDigit && fracPart.all Char.isDigit then
      some (sign * ((digitsToNat intPart : ℚ)
        + (digitsToNat fracPart : ℚ) / 10 ^ fracPart.length))
    else none
  | _ => none

/-- Sequential `str.replace(c, "")` for single-character patterns. -/
def removeChars (cs : List Char) (s : String) : String :=
  (s.toList.filter (fun c => !cs.contains c)).asString

/-- One iteration of the duration-parsing loop of
`MESAnalyzer.calculate_process_metrics` (analytics.py lines 159-172) for a
step that has a `"时间"` key.  The day (`"天"`) and hour (`"h"`) branches call
Python `float` outside any `try`, so an unparseable numeric part raises
`ValueError`; only the unit-less branch is guarded by `try/except`, falling
back to zero. -/
def metricsStepHours (ts : String) : Except String ℚ :=
  if strContains ts "天" then
    match parseFloatQ (removeChars ['天', '(', ')'] ts) with
    | some v => Except.ok (v * 24)
    | none => Except.error "ValueError"
  else if strContains ts "h" then
    match parseFloatQ (removeChars ['h', '(', ')'] ts) with
    | some v => Except.ok v
    | none => Except.error "ValueError"
  else
    match parseFloatQ ts with
    | some v => Except.ok v
    | none => Except.ok 0

/-- The `total_time` accumulation of `calculate_process_metrics` over all
steps (analytics.py lines 157-171): steps without a `"时间"` key are skipped,
and a `ValueError` raised while parsing any step aborts the whole
computation. -/
def totalTimeHours : List ProcessStep → Except String ℚ
  | [] => Except.ok 0
  | s :: rest =>
    match s.time with
    | none => totalTimeHours rest
    | some ts =>
      match metricsStepHours ts with
      | Except.ok v => (totalTimeHours rest).map (fun acc => v + acc)
      | Except.error e => Except.error e

/-- The duration target of `MESFeatures.generate_batch_records`
(mes_features.py lines 81-91): `step.get("时间", "4h")`, parsed inside a
`try/except` whose fallback — like the fallback of the unit-less branch — is
a 4.0-hour target, not zero. -/
def genTargetTime (time : Option String) : ℚ :=
  let ts := time.getD "4h"
  if strContains ts "天" then
    match parseFloatQ (removeChars ['天', '(', ')'] ts) with
    | some v => v * 24
    | none => 4
  else if strContains ts "h" then
    match parseFloatQ (removeChars ['h', '(', ')'] ts) with
    | some v => v
    | none => 4
  else 4

/-! ### Batch statistics (`MESFeatures._calculate_cpk`, `_detect_outliers`)

Numeric series are lists of rationals.  `pandas Series.std()` is the square
root of the `ddof = 1` sample variance; the square root of a rational is
irrational in general, so the functions below take the standard deviation as
an explicit argument `s`, characterized in the theorems by `0 ≤ s` and
`s * s = sampleVar xs`.  (For a series of rational values and length ≥ 2 the
pandas result is never NaN, so the source's `pd.isna(std)` test is subsumed
by the `s = 0` comparison.) -/

/-- Arithmetic mean of a series (`pandas Series.mean`). -/
def seriesMean (xs : List ℚ) : ℚ := xs.sum / xs.length

/-- Sample variance with the pandas default `ddof = 1`; `Series.std()` is its
square root. -/
def sampleVar (xs : List ℚ) : ℚ :=
  ((xs.map (fun x => (x - seriesMean xs) ^ 2)).sum) / ((xs.length : ℚ) - 1)

/-- `MESFeatures._calculate_cpk` (mes_features.py lines 158-180), with the
standard deviation `values.std()` passed as `s`. -/
def calculate_cpk (xs : List ℚ) (s : ℚ) : ℚ :=
  if xs.length < 2 then 0
  else if s = 0 then 0
  else
    let m := seriesMean xs
    let usl := m + 3 * s
    let lsl := m - 3 * s
    let cpu := if 0 < s then (usl - m) / (3 * s) else 0
    let cpl := if 0 < s then (m - lsl) / (3 * s) else 0
    min cpu cpl

/-- `MESFeatures._detect_outliers` (mes_features.py lines 182-203), with the
standard deviation passed as `s` (see above) and the threshold passed
explicitly (every call site uses the default 2.0).  Indices are the 0-based
positions produced by `enumerate(values)`. -/
def detect_outliers (xs : List ℚ) (s threshold : ℚ) : List Nat :=
  if xs.length < 3 then []
  else if s = 0 then []
  else
    ((List.range xs.length).zip xs).filterMap
      (fun iv => if threshold < |(iv.2 - seriesMean xs) / s| then some iv.1 else none)

/-! ### Batch Record Synthesizer (`MESFeatures.generate_batch_records`)

The Python code draws from the process-global `np.random` generator, reseeding
it with the batch number at the top of each loop iteration.  We model the
generator as explicit state passing through an abstract interface `RngOps`:
`seed n` models `np.random.seed(n)` and each draw maps the current state to a
value and a successor state.  Any deterministic generator (numpy's Mersenne
Twister included) is an instance; nothing below depends on the distributions'
numeric content.  Dates are modelled at day granularity (an integer day
number), which is exactly what survives `strftime("%Y-%m-%d")`. -/

structure RngOps (σ : Type) where
  seed : Nat → σ
  choiceNat : List Nat → σ → Nat × σ
  choice : List String → σ → String × σ
  choiceP : List String → List ℚ → σ → String × σ
  uniform : ℚ → ℚ → σ → ℚ × σ
  normal : ℚ → ℚ → σ → ℚ × σ
  random : σ → ℚ × σ

/-- One generated parameter column group: the key stem and the `_target`,
`_actual`, `_status` values. -/
structure ParamCell where
  key : String
  target : ℚ
  actual : ℚ
  status : String
deriving DecidableEq

/-- One row of the synthesized batch table (mes_features.py lines 41-54 plus
the per-parameter columns of lines 56-100). -/
structure BatchRecord where
  batch_number : String
  product_name : String
  manufacturing_date : Int
  expiry_date : Int
  batch_size : Nat
  line : String
  shift : String
  operator_id : String
  supervisor : String
  yield_percent : ℚ
  quality_status : String
  overall_status : String
  paramCells : List ParamCell
deriving DecidableEq

/-- Python `f"{n:0wd}"`: decimal digits left-padded with zeros to width `w`. -/
def padZeros (w n : Nat) : String :=
  (List.replicate (w - (toString n).length) '0').asString ++ toString n

/-- Python `round(x, d)` on the exact model.  (numpy/Python round half to
even; the difference from half-up arises only at exact decimal midpoints of
drawn values and is immaterial to every property proved here, none of which
inspects a rounded value.) -/
def roundq (d : Nat) (x : ℚ) : ℚ :=
  (⌊x * 10 ^ d + 1 / 2⌋ : ℚ) / 10 ^ d

/-- The column-key stem `f"step_{i}_{param[:10].replace(' ', '_').lower()}"`
(mes_features.py line 63). -/
def paramKey (i : Nat) (param : String) : String :=
  "step_" ++ toString i ++ "_"
    ++ ((param.toList.take 10).map (fun c => if c = ' ' then '_' else c.toLower)).asString

/-- Target/actual/status generation for one parameter of one step
(mes_features.py lines 62-100): an if/elif chain on parameter keywords, each
branch drawing the actual value from its type-specific normal distribution
and comparing against its tolerance band.  The acidity branch tests the
literal `"pH"` against the lowercased parameter, exactly as the source's
`"pH" in param.lower()` — a condition that can never hold because a
lowercased string contains no uppercase `H`, so the branch is dead in the
source and equally dead here. -/
def genParamCell (R : RngOps σ) (stp : ProcessStep) (i : Nat) (param : String)
    (st : σ) : ParamCell × σ :=
  let key := paramKey i param
  if strContains param "温度" then
    let d := R.normal 25 (3 / 2) st
    let a := roundq 1 d.1
    (⟨key, 25, a, if |a - 25| ≤ 2 then "正常" else "偏离"⟩, d.2)
  else if strContains param "压力" then
    let d := R.normal 1 (3 / 20) st
    let a := roundq 2 d.1
    (⟨key, 1, a, if |a - 1| ≤ 1 / 5 then "正常" else "偏离"⟩, d.2)
  else if strContains (lowerStr param) "pH" then
    let d := R.normal 7 (1 / 5) st
    let a := roundq 2 d.1
    (⟨key, 7, a, if 13 / 2 ≤ a ∧ a ≤ 15 / 2 then "正常" else "偏离"⟩, d.2)
  else if strContains param "时间" then
    let t := genTargetTime stp.time
    let d := R.normal t (t / 10) st
    let a := roundq 1 d.1
    (⟨key, t, a, if |a - t| ≤ t * (3 / 20) then "正常" else "偏离"⟩, d.2)
  else
    let d := R.normal 100 2 st
    let a := roundq 1 d.1
    (⟨key, 100, a, if 95 ≤ a ∧ a ≤ 105 then "正常" else "偏离"⟩, d.2)

/-- The inner `for param in params` loop (first three parameters of a step),
threading the generator state. -/
def genCellsForParams (R : RngOps σ) (stp : ProcessStep) (i : Nat) :
    List String → σ → List ParamCell × σ
  | [], st => ([], st)
  | p :: ps, st =>
    let c := genParamCell R stp i p st
    let rest := genCellsForParams R stp i ps c.2
    (c.1 :: rest.1, rest.2)

/-- The outer `for i, step in enumerate(steps, 1)` loop of the per-parameter
column generation, threading the generator state. -/
def genCellsForSteps (R : RngOps σ) : List (Nat × ProcessStep) → σ → List ParamCell × σ
  | [], st => ([], st)
  | is :: rest, st =>
    let cs := genCellsForParams R is.2 is.1 (is.2.params.take 3) st
    let more := genCellsForSteps R rest cs.2
    (cs.1 ++ more.1, more.2)

/-- Python `enumerate(l, 1)`. -/
def enumerate1 {α : Type} (l : List α) : List (Nat × α) :=
  ((List.range l.length).map (· + 1)).zip l

/-- One iteration of the batch loop (mes_features.py lines 35-102).  `_prev`
is the generator state on entry to the iteration; the Python body overwrites
it unconditionally via `np.random.seed(batch_num)` before any draw, which is
why it is unused on the right-hand side. -/
def genBatch (R : RngOps σ) (steps : List ProcessStep) (productName : String)
    (now : Int) (numBatches : Nat) (n : Nat) (_prev : σ) : BatchRecord × σ :=
  let batchDate : Int := now - 2 * (numBatches : Int) + 2 * (n : Int)
  let s1 := R.seed n
  let d1 := R.choiceNat [100, 200, 300, 500] s1
  let d2 := R.choice ["Line-1", "Line-2", "Line-3"] d1.2
  let d3 := R.choice ["A", "B", "C"] d2.2
  let d4 := R.uniform 85 98 d3.2
  let d5 := R.choiceP ["合格", "待定", "不合格"] [95 / 100, 1 / 25, 1 / 100] d4.2
  let d6 := R.random d5.2
  let cells := genCellsForSteps R (enumerate1 steps) d6.2
  (⟨"BATCH-" ++ padZeros 4 n, productName, batchDate, batchDate + 730,
    d1.1, d2.1, d3.1, "OP" ++ padZeros 3 (n % 5 + 1), "SUP" ++ padZeros 2 (n % 3 + 1),
    roundq 2 d4.1, d5.1, if 1 / 10 < d6.1 then "通过" else "需调查", cells.1⟩, cells.2)

/-- The 1-based batch numbers `range(1, num_batches + 1)`. -/
def batchIndices (nb : Nat) : List Nat := (List.range nb).map (· + 1)

/-- The batch loop, carrying the generator state from one iteration to the
next exactly as the global `np.random` state is carried in Python. -/
def genBatchesList (R : RngOps σ) (steps : List ProcessStep) (productName : String)
    (now : Int) (numBatches : Nat) : List Nat → σ → List BatchRecord
  | [], _ => []
  | n :: rest, st =>
    let r := genBatch R steps productName now numBatches n st
    r.1 :: genBatchesList R steps productName now numBatches rest r.2

/-- The whitespace characters recognized by Python `str.split()` with no
argument. -/
def pyWhitespace (c : Char) : Bool :=
  c = ' ' || c = '\t' || c = '\n' || c = '\r' || c = '\x0b' || c = '\x0c'

/-- Python `s.split()`: tokens separated by runs of whitespace, with no empty
tokens. -/
def pySplit (d : String) : List String :=
  ((d.toList.splitOnP pyWhitespace).filter (fun t => t ≠ [])).map List.asString

/-- The product-name extraction of mes_features.py line 24:
`product_info.get("description", "未知产品").split()[0] if
product_info.get("description") else "产品"`.  A falsy (missing or empty)
description gives `"产品"`; a truthy one is split on whitespace and indexed
at 0, which raises `IndexError` — modelled as `none` — when the description
is whitespace-only and therefore has no tokens. -/
def productNameOf? (info : ProductInfo) : Option String :=
  match info.description with
  | some d => if d.isEmpty then some "产品" else (pySplit d).head?
  | none => some "产品"

/-- `MESFeatures.generate_batch_records` (mes_features.py lines 16-104).  The
product name is computed first (line 24) and its `IndexError` on a
whitespace-only truthy description propagates to the caller before any record
is produced; otherwise the result is empty when there are no steps, and one
record per batch number when there are.  `st0` is the ambient `np.random`
state at call time and `now` the calendar day of the call. -/
def generate_batch_records (R : RngOps σ) (info : ProductInfo)
    (numBatches : Nat) (now : Int) (st0 : σ) : Except String (List BatchRecord) :=
  match productNameOf? info with
  | none => Except.error "IndexError"
  | some pn =>
    if info.steps.isEmpty then Except.ok []
    else
      Except.ok (genBatchesList R info.steps pn now numBatches
        (batchIndices numBatches) st0)

/-! ### Theorems: Compliance Checker -/

/-- Every per-step finding carries severity `"严重"` or `"中等"`. -/
theorem stepComplianceFindings_severity (s : ProcessStep) :
    ∀ it ∈ stepComplianceFindings s, it.severity = "严重" ∨ it.severity = "中等" := by
  intro it hit
  unfold stepComplianceFindings at hit
  rcases List.mem_append.1 hit with h | h
  · split_ifs at h
    · rw [List.mem_singleton] at h; subst h; left; rfl
    · cases h
  · split_ifs at h
    · rw [List.mem_singleton] at h; subst h; right; rfl
    · cases h

/-- Every compliance finding carries severity `"严重"` or `"中等"`. -/
theorem complianceItemsOf_severity (info : ProductInfo) :
    ∀ it ∈ complianceItemsOf info, it.severity = "严重" ∨ it.severity = "中等" := by
  intro it hit
  unfold complianceItemsOf at hit
  rcases List.mem_append.1 hit with h | h
  · rw [List.mem_flatten] at h
    obtain ⟨l, hl, hitl⟩ := h
    rw [List.mem_map] at hl
    obtain ⟨s, _, rfl⟩ := hl
    exact stepComplianceFindings_severity s it hitl
  · split_ifs at h
    · cases h
    · rw [List.mem_singleton] at h; subst h; right; rfl

/-- C3: `check_gmp_compliance` reports overall status `"合规"` exactly when
the count of `"严重"` findings is zero, and any nonzero severe count forces
status `"需改进"` no matter how many `"中等"` findings there are. -/
theorem compliance_severity_gate (info : ProductInfo) :
    ((check_gmp_compliance info).overall_status = "合规"
      ↔ (check_gmp_compliance info).severe_count = 0)
    ∧ ((check_gmp_compliance info).severe_count ≠ 0
        → (check_gmp_compliance info).overall_status = "需改进") := by
  simp only [check_gmp_compliance]
  by_cases h : (complianceItemsOf info).countP (fun it => it.severity == "严重") = 0
  · rw [if_pos h]
    exact ⟨⟨fun _ => h, fun _ => rfl⟩, fun hc => absurd h hc⟩
  · rw [if_neg h]
    exact ⟨⟨fun he => absurd he (by decide), fun he => absurd he h⟩, fun _ => rfl⟩

/-- Witness for C3: a sterilization step with no sterility parameter yields a
severe finding, and the theorem then forces status `"需改进"`. -/
theorem compliance_severity_gate_witness :
    (check_gmp_compliance ⟨[⟨"灭菌", [], [], none⟩], some "无菌产品工艺", none⟩).severe_count ≠ 0
    ∧ (check_gmp_compliance ⟨[⟨"灭菌", [], [], none⟩], some "无菌产品工艺", none⟩).overall_status
        = "需改进" :=
  ⟨by decide,
   (compliance_severity_gate ⟨[⟨"灭菌", [], [], none⟩], some "无菌产品工艺", none⟩).2 (by decide)⟩

/-- C10: no compliance rule ever emits a `"轻微"` finding, so the minor tally
is zero for every input. -/
theorem minor_count_always_zero (info : ProductInfo) :
    (check_gmp_compliance info).minor_count = 0 := by
  simp only [check_gmp_compliance]
  rw [List.countP_eq_zero]
  intro it hit
  rcases complianceItemsOf_severity info it hit with h | h <;> simp [h]

/-! ### Theorems: risk level boundaries -/

/-- C4: the risk-level thresholds are closed on the lower end: 8.0 is already
`"极高风险"`, 7.999 still `"高风险"`, 5.999 still `"中风险"`, and in general
the mapping follows the first matching `≥` breakpoint. -/
theorem risk_level_boundaries :
    determine_risk_level 8 = "极高风险 (红色)"
    ∧ determine_risk_level (7999 / 1000) = "高风险 (橙色)"
    ∧ determine_risk_level (5999 / 1000) = "中风险 (黄色)"
    ∧ ∀ score : ℚ,
        (8 ≤ score → determine_risk_level score = "极高风险 (红色)")
        ∧ (6 ≤ score → score < 8 → determine_risk_level score = "高风险 (橙色)")
        ∧ (4 ≤ score → score < 6 → determine_risk_level score = "中风险 (黄色)")
        ∧ (2 ≤ score → score < 4 → determine_risk_level score = "低风险 (蓝色)")
        ∧ (score < 2 → determine_risk_level score = "可接受风险 (绿色)") := by
  refine ⟨by norm_num [determine_risk_level], by norm_num [determine_risk_level],
    by norm_num [determine_risk_level], fun score => ?_⟩
  refine ⟨fun h1 => ?_, fun h1 h2 => ?_, fun h1 h2 => ?_, fun h1 h2 => ?_, fun h1 => ?_⟩ <;>
    · unfold determine_risk_level
      split_ifs <;> first | rfl | linarith

/-- Witness for C4: the general breakpoint characterization applied at 7.5. -/
theorem risk_level_boundaries_witness :
    (6 : ℚ) ≤ 15 / 2 ∧ (15 / 2 : ℚ) < 8
    ∧ determine_risk_level (15 / 2) = "高风险 (橙色)" :=
  ⟨by norm_num, by norm_num,
   (risk_level_boundaries.2.2.2 (15 / 2)).2.1 (by norm_num) (by norm_num)⟩

/-! ### Theorems: risk monotonicity -/

/-- C5: appending a sterility-related parameter (containing 无菌, 病毒 or
内毒素) to a step whose name matches a critical-operation keyword strictly
increases the step's (weighted) risk score. -/
theorem sterile_param_strictly_increases_risk (s : ProcessStep) (p : String)
    (hname : containsAny s.name criticalNameKw = true)
    (hp : containsAny p ["无菌", "病毒", "内毒素"] = true) :
    stepRiskScore s < stepRiskScore { s with params := s.params ++ [p] } := by
  have hext : evaluate_step_risk_factors { s with params := s.params ++ [p] }
      = evaluate_step_risk_factors s + paramRiskScore p := by
    simp only [evaluate_step_risk_factors, List.map_append, List.sum_append,
      List.map_cons, List.map_nil, List.sum_cons, List.sum_nil]
    ring
  have hple : 3 ≤ paramRiskScore p := by
    unfold paramRiskScore
    rw [if_pos hp]
    split_ifs <;> norm_num
  unfold stepRiskScore
  dsimp only
  rw [if_pos hname, if_pos hname, hext]
  linarith

/-- Witness for C5: the theorem at a concrete sterilization step and the
parameter `"无菌保证"`. -/
theorem sterile_param_strictly_increases_risk_witness :
    containsAny "灭菌" criticalNameKw = true
    ∧ containsAny "无菌保证" ["无菌", "病毒", "内毒素"] = true
    ∧ stepRiskScore ⟨"灭菌", [], [], none⟩
        < stepRiskScore ⟨"灭菌", ["无菌保证"], [], none⟩ :=
  ⟨by decide, by decide,
   sterile_param_strictly_increases_risk ⟨"灭菌", [], [], none⟩ "无菌保证"
     (by decide) (by decide)⟩

/-! ### Theorems: capability index degeneracy -/

/-- C2: whenever the series has at least two points, the simplified capability
index is 1 when the standard deviation is nonzero, and 0 when the series is
constant (standard deviation 0). -/
theorem cpk_collapses (xs : List ℚ) (s : ℚ) (hs : 0 ≤ s)
    (hvar : s * s = sampleVar xs) (hlen : 2 ≤ xs.length) :
    (sampleVar xs ≠ 0 → calculate_cpk xs s = 1)
    ∧ (sampleVar xs = 0 → calculate_cpk xs s = 0) := by
  constructor
  · intro hv
    have hsne : s ≠ 0 := by
      intro h; exact hv (by rw [← hvar, h, mul_zero])
    have hspos : 0 < s := lt_of_le_of_ne hs (Ne.symm hsne)
    have h3 : (3 : ℚ) * s ≠ 0 := by positivity
    simp only [calculate_cpk, if_neg (show ¬xs.length < 2 by omega), if_neg hsne,
      if_pos hspos]
    have e1 : seriesMean xs + 3 * s - seriesMean xs = 3 * s := by ring
    have e2 : seriesMean xs - (seriesMean xs - 3 * s) = 3 * s := by ring
    rw [e1, e2, div_self h3, min_self]
  · intro hv
    have hs0 : s = 0 := by
      have h0 : s * s = 0 := by rw [hvar, hv]
      exact mul_self_eq_zero.mp h0
    subst hs0
    unfold calculate_cpk
    by_cases h : xs.length < 2
    · rw [if_pos h]
    · rw [if_neg h, if_pos rfl]

/-- Witness for C2: the series `[0, 1, 2]` has sample variance 1, hence
standard deviation 1, and its capability index is exactly 1. -/
theorem cpk_collapses_witness :
    (0 : ℚ) ≤ 1 ∧ (1 : ℚ) * 1 = sampleVar [0, 1, 2]
    ∧ 2 ≤ ([0, 1, 2] : List ℚ).length
    ∧ sampleVar [0, 1, 2] ≠ 0
    ∧ calculate_cpk [0, 1, 2] 1 = 1 :=
  ⟨by norm_num, by norm_num [sampleVar, seriesMean], by norm_num,
   by norm_num [sampleVar, seriesMean],
   (cpk_collapses [0, 1, 2] 1 (by norm_num) (by norm_num [sampleVar, seriesMean])
     (by norm_num)).1 (by norm_num [sampleVar, seriesMean])⟩

/-! ### Theorems: outlier detection -/

/-- C8: a series of fewer than 3 points yields no outliers regardless of
spread; for 3 or more points with nonzero standard deviation, the outlier
list contains exactly the 0-based indices whose |z-score| exceeds 2. -/
theorem outlier_indices (xs : List ℚ) (s : ℚ)
    (hvar : s * s = sampleVar xs) :
    (xs.length < 3 → detect_outliers xs s 2 = [])
    ∧ (3 ≤ xs.length → sampleVar xs ≠ 0 →
        ∀ i : Nat, (i ∈ detect_outliers xs s 2
          ↔ i < xs.length ∧ 2 < |(xs.getD i 0 - seriesMean xs) / s|)) := by
  constructor
  · intro h; unfold detect_outliers; rw [if_pos h]
  · intro hlen hv i
    have hsne : s ≠ 0 := by
      intro h; exact hv (by rw [← hvar, h, mul_zero])
    unfold detect_outliers
    rw [if_neg (by omega), if_neg hsne]
    have hzlen : ((List.range xs.length).zip xs).length = xs.length := by
      simp [List.length_zip]
    constructor
    · intro hi
      rw [List.mem_filterMap] at hi
      obtain ⟨jv, hmem, hf⟩ := hi
      rw [List.mem_iff_getElem] at hmem
      obtain ⟨k, hk, hkeq⟩ := hmem
      have hk' : k < xs.length := by omega
      have hjv : jv = (k, xs[k]) := by
        rw [← hkeq, List.getElem_zip, List.getElem_range]
      subst hjv
      by_cases hc : 2 < |(xs[k] - seriesMean xs) / s|
      · rw [if_pos hc] at hf
        have hik : i = k := by injection hf with h; omega
        subst hik
        exact ⟨hk', by rwa [List.getD_eq_getElem _ _ hk']⟩
      · rw [if_neg hc] at hf
        cases hf
    · rintro ⟨hilen, hz⟩
      rw [List.mem_filterMap]
      refine ⟨(i, xs[i]), ?_, ?_⟩
      · rw [List.mem_iff_getElem]
        exact ⟨i, by omega, by rw [List.getElem_zip, List.getElem_range]⟩
      · rw [if_pos (by rwa [List.getD_eq_getElem _ _ hilen] at hz)]

/-- Witness for C8: in the 9-point series of eight −1 readings and one 8, the
standard deviation is 3 and index 8 has z-score 8/3 > 2, so it is flagged. -/
theorem outlier_indices_witness :
    (3 : ℚ) * 3 = sampleVar [-1, -1, -1, -1, -1, -1, -1, -1, 8]
    ∧ 8 ∈ detect_outliers [-1, -1, -1, -1, -1, -1, -1, -1, 8] 3 2 := by
  have hv : (3 : ℚ) * 3 = sampleVar [-1, -1, -1, -1, -1, -1, -1, -1, 8] := by
    norm_num [sampleVar, seriesMean]
  refine ⟨hv, ?_⟩
  refine ((outlier_indices [-1, -1, -1, -1, -1, -1, -1, -1, 8] 3 hv).2 (by norm_num)
    (by norm_num [sampleVar, seriesMean]) 8).2 ⟨by norm_num, ?_⟩
  norm_num [seriesMean]
  rw [lt_abs]
  left
  norm_num

/-! ### Theorems: filtration compliance scenario -/

/-- C9 counterexample: when the description is missing, a process whose single
step is named `"过滤"` with no pressure/flow parameter yields two findings
(the step finding plus the missing-description finding), not exactly one. -/
theorem filtration_single_finding_counterexample :
    ((check_gmp_compliance ⟨[⟨"过滤", [], [], none⟩], none, none⟩).compliance_items).length
      = 2 := by decide

/-- C9 amended: for a process with a non-empty description and exactly one
step whose name contains 过滤 but neither 灭菌 nor 无菌, and whose parameters
contain no 压力 or 流量, `check_gmp_compliance` returns exactly one finding,
of severity `"中等"`, referencing that step. -/
theorem filtration_single_moderate_finding (stp : ProcessStep) (d : String)
    (g : Option String) (hd : d.isEmpty = false)
    (hname : strContains stp.name "过滤" = true)
    (hster : containsAny stp.name ["灭菌", "无菌"] = false)
    (hparams : stp.params.any (fun p => strContains p "压力" || strContains p "流量")
      = false) :
    (check_gmp_compliance ⟨[stp], some d, g⟩).compliance_items
      = [{ step := stp.name, issue := "分离步骤缺少过程控制参数", severity := "中等",
           recommendation := "增加压力或流量监测" }] := by
  have hsep : containsAny stp.name ["过滤", "层析", "纯化"] = true := by
    simp [containsAny, hname]
  have hdt : descTruthy (some d) = true := by
    simp [descTruthy, hd]
  simp only [check_gmp_compliance]
  show complianceItemsOf _ = _
  simp [complianceItemsOf, stepComplianceFindings, hdt, hsep, hparams, hster]

/-- Witness for C9 (amended): a concrete sterile-filtration process with a
description present. -/
theorem filtration_single_moderate_finding_witness :
    (check_gmp_compliance
        ⟨[⟨"除菌过滤", ["滤芯完整性测试"], [], none⟩], some "注射剂除菌过滤工艺", none⟩
      ).compliance_items
      = [{ step := "除菌过滤", issue := "分离步骤缺少过程控制参数", severity := "中等",
           recommendation := "增加压力或流量监测" }] :=
  filtration_single_moderate_finding ⟨"除菌过滤", ["滤芯完整性测试"], [], none⟩
    "注射剂除菌过滤工艺" none (by decide) (by decide) (by decide) (by decide)

/-! ### Theorems: duration parsing -/

/-- C6 counterexample: the duration string `"7-10天"` carries the day marker,
so `calculate_process_metrics` reaches `float("7-10")` outside any `try` and
the whole statistics computation aborts with `ValueError` instead of falling
back to a zero contribution. -/
theorem duration_parse_abort_counterexample :
    totalTimeHours [⟨"发酵培养", [], [], some "7-10天"⟩]
      = Except.error "ValueError" := rfl

/-- C6 amended: only the unit-less branch of
`calculate_process_metrics` falls back to a zero contribution on an
unparseable duration; a duration bearing a 天 or h unit marker whose numeric
part is unparseable aborts the metrics computation with `ValueError`, while
`generate_batch_records` never aborts but falls back to a 4.0-hour target
rather than zero. -/
theorem duration_fallback_behaviour (ts : String) :
    (strContains ts "天" = false → strContains ts "h" = false →
      parseFloatQ ts = none → metricsStepHours ts = Except.ok 0)
    ∧ (strContains ts "天" = true →
        parseFloatQ (removeChars ['天', '(', ')'] ts) = none →
        metricsStepHours ts = Except.error "ValueError"
          ∧ genTargetTime (some ts) = 4)
    ∧ (strContains ts "天" = false → strContains ts "h" = true →
        parseFloatQ (removeChars ['h', '(', ')'] ts) = none →
        metricsStepHours ts = Except.error "ValueError"
          ∧ genTargetTime (some ts) = 4) := by
  refine ⟨fun h1 h2 h3 => ?_, fun h1 h2 => ⟨?_, ?_⟩, fun h1 h2 h3 => ⟨?_, ?_⟩⟩
  · simp [metricsStepHours, h1, h2, h3]
  · simp [metricsStepHours, h1, h2]
  · simp [genTargetTime, h1, h2]
  · simp [metricsStepHours, h1, h2, h3]
  · simp [genTargetTime, h1, h2, h3]

/-- Witness for C6 (amended): the catalog-style duration `"18-24h"`. -/
theorem duration_fallback_behaviour_witness :
    metricsStepHours "18-24h" = Except.error "ValueError"
    ∧ genTargetTime (some "18-24h") = 4 :=
  (duration_fallback_behaviour "18-24h").2.2 (by decide) (by decide) (by decide)

/-! ### Theorems: batch-record generation -/

/-- The record and the outgoing generator state produced for one batch do not
depend on the ambient generator state or on the calendar day, apart from the
two date fields: `np.random.seed(batch_num)` overwrites the state before any
draw, and the day only enters the dates. -/
theorem genBatch_ambient_indep {σ : Type} (R : RngOps σ) (steps : List ProcessStep)
    (pn : String) (now1 now2 : Int) (nb n : Nat) (s1 s2 : σ) :
    ((genBatch R steps pn now1 nb n s1).1.paramCells
        = (genBatch R steps pn now2 nb n s2).1.paramCells)
    ∧ (genBatch R steps pn now1 nb n s1).2 = (genBatch R steps pn now2 nb n s2).2 :=
  ⟨rfl, rfl⟩

/-- Lifting of the per-batch independence over the whole batch loop. -/
theorem genBatchesList_param_indep {σ : Type} (R : RngOps σ) (steps : List ProcessStep)
    (pn : String) (now1 now2 : Int) (nb : Nat) :
    ∀ (ns : List Nat) (s1 s2 : σ),
      (genBatchesList R steps pn now1 nb ns s1).map BatchRecord.paramCells
        = (genBatchesList R steps pn now2 nb ns s2).map BatchRecord.paramCells
  | [], _, _ => rfl
  | n :: rest, s1, s2 => by
    simp only [genBatchesList, List.map_cons]
    exact congrArg₂ List.cons
      (genBatch_ambient_indep R steps pn now1 now2 nb n s1 s2).1
      (genBatchesList_param_indep R steps pn now1 now2 nb rest _ _)

/-- C1: two invocations of the Batch Record Synthesizer with the same process
definition and batch count — at different call times and from different
ambient `np.random` states — produce identical target, actual and status
values for every generated parameter column of every batch (and the same
outcome, crash included, of the product-name extraction), because generation
for batch n is reseeded deterministically by n.  (The unseeded OEE
calculation lives outside `generate_batch_records` and is exempt.) -/
theorem generate_param_columns_deterministic {σ : Type} (R : RngOps σ)
    (info : ProductInfo) (nb : Nat) (now1 now2 : Int) (s1 s2 : σ) :
    (generate_batch_records R info nb now1 s1).map (List.map BatchRecord.paramCells)
      = (generate_batch_records R info nb now2 s2).map (List.map BatchRecord.paramCells) := by
  unfold generate_batch_records
  cases hpn : productNameOf? info with
  | none => rfl
  | some pn =>
    dsimp only
    by_cases h : info.steps.isEmpty
    · rw [if_pos h, if_pos h]
    · rw [if_neg h, if_neg h]
      simp only [Except.map]
      exact congrArg Except.ok
        (genBatchesList_param_indep R info.steps pn now1 now2 nb _ _ _)

/-- The batch loop produces one record per batch number. -/
theorem genBatchesList_length {σ : Type} (R : RngOps σ) (steps : List ProcessStep)
    (pn : String) (now : Int) (nb : Nat) :
    ∀ (ns : List Nat) (st : σ),
      (genBatchesList R steps pn now nb ns st).length = ns.length
  | [], _ => rfl
  | _ :: rest, st => by
    simp only [genBatchesList, List.length_cons]
    exact congrArg Nat.succ (genBatchesList_length R steps pn now nb rest _)

/-- The batch numbers are `BATCH-` plus the zero-padded batch index. -/
theorem genBatchesList_batch_numbers {σ : Type} (R : RngOps σ) (steps : List ProcessStep)
    (pn : String) (now : Int) (nb : Nat) :
    ∀ (ns : List Nat) (st : σ),
      (genBatchesList R steps pn now nb ns st).map BatchRecord.batch_number
        = ns.map (fun n => "BATCH-" ++ padZeros 4 n)
  | [], _ => rfl
  | n :: rest, st => by
    simp only [genBatchesList, List.map_cons]
    exact congrArg₂ List.cons rfl (genBatchesList_batch_numbers R steps pn now nb rest _)

/-- Every generated record's expiry date is 730 days after its manufacturing
date. -/
theorem genBatchesList_expiry {σ : Type} (R : RngOps σ) (steps : List ProcessStep)
    (pn : String) (now : Int) (nb : Nat) :
    ∀ (ns : List Nat) (st : σ) (r : BatchRecord),
      r ∈ genBatchesList R steps pn now nb ns st →
        r.expiry_date = r.manufacturing_date + 730
  | [], _, r, hr => absurd hr (List.not_mem_nil r)
  | n :: rest, st, r, hr => by
    simp only [genBatchesList] at hr
    rcases List.mem_cons.1 hr with h | h
    · subst h; rfl
    · exact genBatchesList_expiry R steps pn now nb rest _ r h

/-- A trivial deterministic generator used to instantiate the batch-generation
theorems at a concrete state type. -/
def unitRng : RngOps Unit where
  seed _ := ()
  choiceNat l _ := (l.headD 0, ())
  choice l _ := (l.headD "", ())
  choiceP l _ _ := (l.headD "", ())
  uniform a _ _ := (a, ())
  normal m _ _ := (m, ())
  random _ := ((0 : ℚ), ())

/-- C7 counterexample: a process with one step but a whitespace-only (hence
truthy) description makes `description.split()[0]` raise `IndexError` at
mes_features.py line 24, so `generate_batch_records` aborts before producing
a single record instead of returning 10 of them. -/
theorem generate_ten_batch_counterexample :
    generate_batch_records unitRng
        ⟨[⟨"混合", ["搅拌速度"], [], none⟩], some " ", none⟩ 10 0 ()
      = Except.error "IndexError" := rfl

/-- C7 amended: for a process with at least one step whose product-name
extraction does not raise (its description, when present and non-empty,
contains at least one non-whitespace token), generating 10 batches yields
exactly 10 records, with pairwise-distinct batch numbers, and every record's
expiry date exactly 730 days after its manufacturing date. -/
theorem generate_ten_batch_shape {σ : Type} (R : RngOps σ) (info : ProductInfo)
    (now : Int) (s0 : σ) (h : info.steps ≠ [])
    (hpn : productNameOf? info ≠ none) :
    ∃ rs, generate_batch_records R info 10 now s0 = Except.ok rs
      ∧ rs.length = 10
      ∧ (rs.map BatchRecord.batch_number).Nodup
      ∧ ∀ r ∈ rs, r.expiry_date = r.manufacturing_date + 730 := by
  have hne : info.steps.isEmpty = false := by
    cases hs : info.steps with
    | nil => exact absurd hs h
    | cons a l => rfl
  cases hp : productNameOf? info with
  | none => exact absurd hp hpn
  | some pn =>
    refine ⟨genBatchesList R info.steps pn now 10 (batchIndices 10) s0, ?_, ?_, ?_, ?_⟩
    · simp only [generate_batch_records, hp, hne, Bool.false_eq_true, if_false]
    · rw [genBatchesList_length]
      decide
    · rw [genBatchesList_batch_numbers]
      decide
    · intro r hr
      exact genBatchesList_expiry R info.steps pn now 10 (batchIndices 10) s0 r hr

/-- Witness for C7 (amended): the theorem instantiated at a one-step process
with a tokenful description and the trivial generator. -/
theorem generate_ten_batch_shape_witness :
    (⟨[⟨"混合", ["搅拌速度"], [], none⟩], some "测试工艺", none⟩ : ProductInfo).steps ≠ []
    ∧ productNameOf? ⟨[⟨"混合", ["搅拌速度"], [], none⟩], some "测试工艺", none⟩ ≠ none
    ∧ ∃ rs, generate_batch_records unitRng
          ⟨[⟨"混合", ["搅拌速度"], [], none⟩], some "测试工艺", none⟩ 10 0 ()
        = Except.ok rs
      ∧ rs.length = 10
      ∧ (rs.map BatchRecord.batch_number).Nodup
      ∧ ∀ r ∈ rs, r.expiry_date = r.manufacturing_date + 730 :=
  ⟨by decide, by decide,
   generate_ten_batch_shape unitRng
     ⟨[⟨"混合", ["搅拌速度"], [], none⟩], some "测试工艺", none⟩ 0 () (by decide)
     (by decide)⟩
